import Mathlib

/-!
# Verification of the GATT client discovery-and-subscription module

Shallow embedding of `src/code/board/include/GattClientModule.h` from
ESLAB_Final_Project. The repository ships only the class header: the
declarations, member fields with their initializers, and the documentation
comments for every pipeline stage. The bodies of the member functions are
not in the repository, so each operation below is modelled from the
specification's description of that stage (doc comments say so
explicitly); the member fields, their initial values and the accessor
`get_connection_handle_t` are embedded directly from the header.

The pipeline is modelled at two levels:
* `ModuleState` with the lifecycle operations (`stop`, `start_discovery`,
  `add_characteristic`, `clear_characteristics`) — the mutable fields of
  the class (header lines 175–178).
* a request-trace semantics (`char_trace`, `process_from`) for the
  per-characteristic processing loop of §4.1 steps 4–9, describing the
  requests the pipeline issues to the BLE stack for each registry record.

The Shared Publication Channel and the Notification Sink contract of §4.3
are modelled by `Channel` and `when_characteristic_changed`.
-/

namespace GattClientModule

/-- `DiscoveredCharacteristic::Properties_t` — the GATT characteristic
properties bitset. Only the bits the module inspects are modelled:
readable, supports-notify, supports-indicate. -/
structure Properties_t where
  read : Bool
  notify : Bool
  indicate : Bool
  deriving DecidableEq, Repr

/-- A Characteristic Record: one GATT characteristic discovered on the
server — a UUID, a declaration handle, a value handle and a properties
bitset (spec §3, mirroring `DiscoveredCharacteristic`). -/
structure DiscoveredCharacteristic where
  uuid : Nat
  decl_handle : Nat
  value_handle : Nat
  props : Properties_t
  deriving DecidableEq, Repr

/-- The implicit pipeline state machine of spec §4.1 (the C++ class keeps
this state implicitly in which callbacks are registered). -/
inductive Phase
  | idle
  | serviceDiscovery
  | listening
  deriving DecidableEq, Repr

/-- The member fields of `GattClientModule` (header lines 175–178):
connection handle, the singly-linked list of discovered characteristics
(modelled as a `List` in insertion order, head = `_characteristics`),
the cursor `_it` (a node pointer; `none` models `nullptr`, `some i` a
pointer to the `i`-th node) and the captured CCCD handle. `phase` records
the implicit pipeline state (spec §4.1). -/
structure ModuleState where
  connection_handle : Nat
  characteristics : List DiscoveredCharacteristic
  it : Option Nat
  descriptor_handle : Nat
  phase : Phase
  deriving DecidableEq, Repr

/-- The freshly constructed module: the field initializers of header lines
175–178 (`_connection_handle = 0`, `_characteristics = nullptr`,
`_it = nullptr`, `_descriptor_handle = 0`), starting in the Idle pipeline
state (spec §4.1 state 1). -/
def initModule : ModuleState :=
  { connection_handle := 0
    characteristics := []
    it := none
    descriptor_handle := 0
    phase := .idle }

/-- `get_connection_handle_t` — embedded from header lines 51–53:
returns `_connection_handle`. -/
def get_connection_handle_t (s : ModuleState) : Nat :=
  s.connection_handle

/-- Modelled from the spec: the body of `add_characteristic` is missing
from src (header line 145 declares it). §4.2 `append(record)`: adds a
record to the end of the ordered sequence; returns failure if memory
cannot be allocated. `alloc_ok` is the allocation oracle for the new
list node; on failure the list is left untouched and `false` is
returned. -/
def add_characteristic (alloc_ok : Bool) (registry : List DiscoveredCharacteristic)
    (c : DiscoveredCharacteristic) : List DiscoveredCharacteristic × Bool :=
  if alloc_ok then (registry ++ [c], true) else (registry, false)

/-- Modelled from the spec: the body of `clear_characteristics` is missing
from src (header line 148 declares it). §4.2 `clear()`: releases every
record and resets the cursor. -/
def clear_characteristics (s : ModuleState) : ModuleState :=
  { s with characteristics := [], it := none }

/-- Modelled from the spec: the body of `stop` is missing from src (header
line 49 declares it). §4.4: unregisters as event handler, clears the
registry, resets the cursor and connection handle to unbound (the
header's initializer shows the unbound sentinel is `0`), and returns the
module to Idle. -/
def stop (s : ModuleState) : ModuleState :=
  let s' := clear_characteristics s
  { s' with connection_handle := 0, phase := .idle }

/-- Modelled from the spec: the body of `start_discovery` is missing from
src (header line 46 declares it). §4.4: extracts the connection handle
from the connection-established event, binds it as the active connection,
resets/clears any prior registry state, and transitions the pipeline to
ServiceDiscovery. -/
def start_discovery (s : ModuleState) (conn : Nat) : ModuleState :=
  let s' := clear_characteristics s
  { s' with connection_handle := conn, phase := .serviceDiscovery }

/-- Modelled from the spec: the ServiceDiscovery stage (§4.1 state 2).
For every characteristic reported by the server the characteristic
callback fires and the record is appended via `add_characteristic`; a
failed append aborts further registry growth (§7 category (b)) but the
discovery otherwise runs to termination. `alloc` is the allocation
oracle, indexed by the number of nodes already in the registry. -/
def run_service_discovery (alloc : Nat → Bool) :
    List DiscoveredCharacteristic → List DiscoveredCharacteristic →
    List DiscoveredCharacteristic
  | [], registry => registry
  | c :: rest, registry =>
    let p := add_characteristic (alloc registry.length) registry c
    if p.2 then run_service_discovery alloc rest p.1 else p.1

/-- Discovery with every allocation succeeding, starting from the given
registry. -/
def run_discovery (reported : List DiscoveredCharacteristic)
    (registry : List DiscoveredCharacteristic) : List DiscoveredCharacteristic :=
  run_service_discovery (fun _ => true) reported registry

/-! ## Request-trace semantics of the per-characteristic loop (§4.1 steps 4–9) -/

/-- CCCD notification-enable bit pattern (bit 0 of the 2-byte bitmask). -/
def notification_enable : Nat := 1

/-- CCCD indication-enable bit pattern (bit 1 of the 2-byte bitmask). -/
def indication_enable : Nat := 2

/-- Observable events of the Discovery Pipeline: the requests it issues to
the BLE stack (spec §6), the cursor positions it visits, and its entry
into the Listening state. -/
inductive TraceEvent
  | visit (i : Nat)
  | readReq (value_handle : Nat)
  | descReq (value_handle : Nat)
  | writeReq (cccd_handle : Nat) (pattern : Nat)
  | listening
  deriving DecidableEq, Repr

/-- Modelled from the spec: the processing of one registry record — the
bodies of `process_next_characteristic`, `when_characteristic_read`,
`when_descriptor_discovered`, `when_descriptor_discovery_ends` and
`when_descriptor_written` are missing from src (header lines 93–126
declare them). §4.1 steps 4–8: if the record is readable a read request
is issued (step 4); after the (optional) read, if the record supports
notify or indicate, its descriptors are discovered (step 6); on
descriptor-discovery termination, if a CCCD handle was captured
(`cccd c = some h` is the environment's answer for this record's
descriptor discovery), a write of the enable bit pattern is issued to it,
notify taking precedence over indicate (step 7); with no CCCD captured
the subscription is skipped (§4.1 tie-break rules). -/
def char_trace (cccd : DiscoveredCharacteristic → Option Nat)
    (c : DiscoveredCharacteristic) : List TraceEvent :=
  (if c.props.read then [.readReq c.value_handle] else []) ++
  (if c.props.notify || c.props.indicate then
    .descReq c.value_handle ::
      (match cccd c with
       | some h =>
         [.writeReq h (if c.props.notify then notification_enable else indication_enable)]
       | none => [])
   else [])

/-- Modelled from the spec: the per-characteristic processing loop (§4.1
steps 3–9). Starting with the cursor on record `i`, each record is
processed in turn (`char_trace`) and the cursor advances monotonically to
the next record (steps 5 and 8); once the registry is exhausted the
pipeline enters Listening (step 9). `visit i` marks the cursor arriving
at record `i`. -/
def process_from (cccd : DiscoveredCharacteristic → Option Nat)
    (chars : List DiscoveredCharacteristic) (i : Nat) : List TraceEvent :=
  match h : chars[i]? with
  | none => [.listening]
  | some c => .visit i :: (char_trace cccd c ++ process_from cccd chars (i + 1))
termination_by chars.length - i
decreasing_by
  have : i < chars.length := by
    by_contra hlt
    rw [List.getElem?_eq_none (by omega)] at h
    exact Option.noConfusion h
  omega

/-- The full pipeline trace after discovery terminates: the cursor is
reset to the first record (§4.1 state 3) and processing runs from there. -/
def pipeline_trace (cccd : DiscoveredCharacteristic → Option Nat)
    (chars : List DiscoveredCharacteristic) : List TraceEvent :=
  process_from cccd chars 0

/-! ## Shared Publication Channel and Notification Sink (§3, §4.3) -/

/-- A value-change (HVX) event: `GattHVXCallbackParams` — connection
handle, attribute handle, type (notification or indication) and the
payload bytes. -/
structure GattHVXCallbackParams where
  connHandle : Nat
  handle : Nat
  is_notification : Bool
  data : List Nat
  deriving DecidableEq, Repr

/-- The Shared Publication Channel (spec §3): a fixed-size buffer plus the
availability and mode flags handed to the consumer thread. The mutex /
condition-variable machinery is external synchronisation and carries no
data; the channel state is the buffer contents and the flags. -/
structure Channel where
  capacity : Nat
  buffer : List Nat
  dataReady : Bool
  mode : Nat
  deriving DecidableEq, Repr

/-- Modelled from the spec: the body of `when_characteristic_changed` is
missing from src (header line 134 declares it). §4.3: on each
value-change event, copy the received value into the fixed-size buffer —
rejecting it if it exceeds buffer capacity — set the mode/availability
flag and signal the condition variable; §7 category (c): an oversized
notification is dropped (logged) without disturbing channel state. -/
def when_characteristic_changed (ch : Channel) (ev : GattHVXCallbackParams) : Channel :=
  if ch.capacity < ev.data.length then ch
  else
    { ch with
      buffer := ev.data
      dataReady := true
      mode := if ev.is_notification then notification_enable else indication_enable }

/-! ## Trace observers -/

/-- Extract the cursor position from a `visit` event. -/
def visitIdx : TraceEvent → Option Nat
  | .visit i => some i
  | _ => none

/-- Is the event a characteristic-value read request? -/
def isReadReq : TraceEvent → Bool
  | .readReq _ => true
  | _ => false

/-- Is the event a descriptor-discovery request? -/
def isDescReq : TraceEvent → Bool
  | .descReq _ => true
  | _ => false

/-- Is the event a CCCD write request? -/
def isWriteReq : TraceEvent → Bool
  | .writeReq _ _ => true
  | _ => false

/-! ## Basic lemmas -/

theorem run_service_discovery_all_ok (reported : List DiscoveredCharacteristic) :
    ∀ registry, run_service_discovery (fun _ => true) reported registry =
      registry ++ reported := by
  induction reported with
  | nil => intro registry; simp [run_service_discovery]
  | cons c rest ih =>
    intro registry
    simp [run_service_discovery, add_characteristic, ih]

theorem run_discovery_from_empty (reported : List DiscoveredCharacteristic) :
    run_discovery reported [] = reported := by
  simpa using run_service_discovery_all_ok reported []

theorem run_service_discovery_take (alloc : Nat → Bool)
    (reported : List DiscoveredCharacteristic) :
    ∀ registry, ∃ k, run_service_discovery alloc reported registry =
      registry ++ reported.take k := by
  induction reported with
  | nil => intro registry; exact ⟨0, by simp [run_service_discovery]⟩
  | cons c rest ih =>
    intro registry
    by_cases h : alloc registry.length
    · obtain ⟨k, hk⟩ := ih (registry ++ [c])
      refine ⟨k + 1, ?_⟩
      simp [run_service_discovery, add_characteristic, h, hk, List.take_succ_cons]
    · exact ⟨0, by simp [run_service_discovery, add_characteristic, h]⟩

theorem process_from_of_none (cccd : DiscoveredCharacteristic → Option Nat)
    (chars : List DiscoveredCharacteristic) (i : Nat) (h : chars[i]? = none) :
    process_from cccd chars i = [.listening] := by
  rw [process_from]
  split
  · rfl
  · rename_i c heq
    rw [h] at heq
    exact Option.noConfusion heq

theorem process_from_of_some (cccd : DiscoveredCharacteristic → Option Nat)
    (chars : List DiscoveredCharacteristic) (i : Nat) (c : DiscoveredCharacteristic)
    (h : chars[i]? = some c) :
    process_from cccd chars i =
      .visit i :: (char_trace cccd c ++ process_from cccd chars (i + 1)) := by
  rw [process_from]
  split
  · rename_i heq
    rw [h] at heq
    exact Option.noConfusion heq
  · rename_i c2 heq
    rw [h] at heq
    cases heq
    rfl

theorem char_trace_filterMap_visitIdx (cccd : DiscoveredCharacteristic → Option Nat)
    (c : DiscoveredCharacteristic) :
    (char_trace cccd c).filterMap visitIdx = [] := by
  cases hr : c.props.read <;> cases hni : (c.props.notify || c.props.indicate) <;>
    cases hc : cccd c <;> simp [char_trace, hr, hni, hc, visitIdx]

theorem char_trace_not_listening (cccd : DiscoveredCharacteristic → Option Nat)
    (c : DiscoveredCharacteristic) :
    TraceEvent.listening ∉ char_trace cccd c := by
  cases hr : c.props.read <;> cases hni : (c.props.notify || c.props.indicate) <;>
    cases hc : cccd c <;> simp [char_trace, hr, hni, hc]

theorem char_trace_filter_read (cccd : DiscoveredCharacteristic → Option Nat)
    (c : DiscoveredCharacteristic) :
    (char_trace cccd c).filter isReadReq =
      if c.props.read then [.readReq c.value_handle] else [] := by
  cases hr : c.props.read <;> cases hni : (c.props.notify || c.props.indicate) <;>
    cases hc : cccd c <;> simp [char_trace, hr, hni, hc, isReadReq]

/-- The cursor positions visited from position `i` on are exactly
`i, i+1, …, chars.length - 1`, in that order. -/
theorem process_from_visits (cccd : DiscoveredCharacteristic → Option Nat)
    (chars : List DiscoveredCharacteristic) :
    ∀ n i, chars.length - i = n →
      (process_from cccd chars i).filterMap visitIdx = List.range' i n := by
  intro n
  induction n with
  | zero =>
    intro i hi
    rw [process_from_of_none cccd chars i (List.getElem?_eq_none (by omega))]
    simp [visitIdx]
  | succ n ih =>
    intro i hi
    have hlt : i < chars.length := by omega
    rw [process_from_of_some cccd chars i chars[i] (List.getElem?_eq_getElem hlt)]
    rw [List.filterMap_cons, List.filterMap_append]
    rw [char_trace_filterMap_visitIdx, ih (i + 1) (by omega)]
    rw [List.range'_succ]
    simp [visitIdx]

/-- The last event of the processing trace is the entry into Listening. -/
theorem process_from_getLast (cccd : DiscoveredCharacteristic → Option Nat)
    (chars : List DiscoveredCharacteristic) :
    ∀ n i, chars.length - i = n →
      (process_from cccd chars i).getLast? = some TraceEvent.listening := by
  intro n
  induction n with
  | zero =>
    intro i hi
    rw [process_from_of_none cccd chars i (List.getElem?_eq_none (by omega))]
    rfl
  | succ n ih =>
    intro i hi
    have hlt : i < chars.length := by omega
    rw [process_from_of_some cccd chars i chars[i] (List.getElem?_eq_getElem hlt)]
    have hr := ih (i + 1) (by omega)
    have hne : process_from cccd chars (i + 1) ≠ [] := by
      intro hemp
      rw [hemp] at hr
      exact Option.noConfusion hr
    rw [show TraceEvent.visit i ::
          (char_trace cccd chars[i] ++ process_from cccd chars (i + 1)) =
        (TraceEvent.visit i :: char_trace cccd chars[i]) ++
          process_from cccd chars (i + 1) from rfl]
    rw [List.getLast?_append_of_ne_nil _ hne, hr]

/-- The processing trace enters Listening exactly once. -/
theorem process_from_count_listening (cccd : DiscoveredCharacteristic → Option Nat)
    (chars : List DiscoveredCharacteristic) :
    ∀ n i, chars.length - i = n →
      (process_from cccd chars i).count TraceEvent.listening = 1 := by
  intro n
  induction n with
  | zero =>
    intro i hi
    rw [process_from_of_none cccd chars i (List.getElem?_eq_none (by omega))]
    rfl
  | succ n ih =>
    intro i hi
    have hlt : i < chars.length := by omega
    rw [process_from_of_some cccd chars i chars[i] (List.getElem?_eq_getElem hlt)]
    rw [List.count_cons, List.count_append]
    have h0 : (char_trace cccd chars[i]).count TraceEvent.listening = 0 :=
      List.count_eq_zero.mpr (char_trace_not_listening cccd chars[i])
    rw [h0, ih (i + 1) (by omega)]
    rfl

/-- The full trace decomposes into one `visit`-headed segment per registry
record, in registry order, followed by the entry into Listening. -/
theorem process_from_eq_flatMap (cccd : DiscoveredCharacteristic → Option Nat)
    (chars : List DiscoveredCharacteristic) :
    ∀ n i, chars.length - i = n →
      process_from cccd chars i =
        ((chars.drop i).enumFrom i).flatMap
            (fun p => .visit p.1 :: char_trace cccd p.2) ++ [.listening] := by
  intro n
  induction n with
  | zero =>
    intro i hi
    rw [process_from_of_none cccd chars i (List.getElem?_eq_none (by omega))]
    rw [List.drop_eq_nil_of_le (by omega)]
    rfl
  | succ n ih =>
    intro i hi
    have hlt : i < chars.length := by
      omega
    rw [process_from_of_some cccd chars i chars[i] (List.getElem?_eq_getElem hlt)]
    rw [ih (i + 1) (by omega)]
    rw [List.drop_eq_getElem_cons hlt]
    simp [List.enumFrom, List.flatMap_cons]

/-- The pipeline trace in closed form: per-record segments in registry
order, then Listening. -/
theorem pipeline_trace_eq (cccd : DiscoveredCharacteristic → Option Nat)
    (chars : List DiscoveredCharacteristic) :
    pipeline_trace cccd chars =
      chars.enum.flatMap (fun p => .visit p.1 :: char_trace cccd p.2) ++
        [.listening] := by
  have h := process_from_eq_flatMap cccd chars chars.length 0 (by omega)
  unfold pipeline_trace
  rw [h]
  simp [List.enum]

/-! ## Concrete sample inputs used by the witnesses -/

/-- Sample record: readable, neither notify nor indicate. -/
def sampleReadOnly : DiscoveredCharacteristic :=
  { uuid := 1, decl_handle := 2, value_handle := 3
    props := { read := true, notify := false, indicate := false } }

/-- Sample record: non-readable, advertising both notify and indicate. -/
def sampleNotifyIndicate : DiscoveredCharacteristic :=
  { uuid := 4, decl_handle := 5, value_handle := 6
    props := { read := false, notify := true, indicate := true } }

/-- Sample channel of capacity 2 holding one previously published byte. -/
def sampleChannel : Channel :=
  { capacity := 2, buffer := [7], dataReady := false, mode := 0 }

/-- Sample value-change event whose 3-byte payload exceeds capacity 2. -/
def sampleOversized : GattHVXCallbackParams :=
  { connHandle := 1, handle := 3, is_notification := true, data := [1, 2, 3] }

/-! ## Claim theorems -/

/-- C1: for every sequence of characteristics reported by the server,
discovery from an empty registry yields exactly the reported sequence in
order (each record appended at the end), and the pipeline cursor visits
positions `0, 1, …, N-1` — each exactly once, in strictly increasing
order without wrapping — before the single entry into Listening, which
is the final trace event. -/
theorem C1_registry_order_and_cursor (cccd : DiscoveredCharacteristic → Option Nat)
    (reported : List DiscoveredCharacteristic) :
    run_discovery reported [] = reported
    ∧ (pipeline_trace cccd reported).filterMap visitIdx = List.range reported.length
    ∧ (pipeline_trace cccd reported).getLast? = some TraceEvent.listening
    ∧ (pipeline_trace cccd reported).count TraceEvent.listening = 1 := by
  refine ⟨run_discovery_from_empty reported, ?_, ?_, ?_⟩
  · have h := process_from_visits cccd reported reported.length 0 (by omega)
    unfold pipeline_trace
    rw [h, List.range_eq_range']
  · exact process_from_getLast cccd reported reported.length 0 (by omega)
  · exact process_from_count_listening cccd reported reported.length 0 (by omega)

/-- C2: the pipeline trace is the concatenation, in registry order, of
one segment per record, and the segment of a record contains exactly one
characteristic-value read request — of that record's value handle — when
the record's properties include readable, and none otherwise. -/
theorem C2_read_iff_readable (cccd : DiscoveredCharacteristic → Option Nat)
    (chars : List DiscoveredCharacteristic) :
    pipeline_trace cccd chars =
      chars.enum.flatMap (fun p => .visit p.1 :: char_trace cccd p.2) ++
        [.listening]
    ∧ ∀ c : DiscoveredCharacteristic,
        (char_trace cccd c).filter isReadReq =
          if c.props.read then [.readReq c.value_handle] else [] :=
  ⟨pipeline_trace_eq cccd chars, fun c => char_trace_filter_read cccd c⟩

/-- C3: a record with neither notify nor indicate capability triggers no
descriptor-discovery request and no CCCD write: its whole segment is its
optional read, after which the cursor advances to the next record. -/
theorem C3_no_descriptor_work (cccd : DiscoveredCharacteristic → Option Nat)
    (chars : List DiscoveredCharacteristic) (i : Nat)
    (c : DiscoveredCharacteristic) (hc : chars[i]? = some c)
    (hn : c.props.notify = false) (hnd : c.props.indicate = false) :
    (char_trace cccd c).countP isDescReq = 0
    ∧ (char_trace cccd c).countP isWriteReq = 0
    ∧ char_trace cccd c =
        (if c.props.read then [.readReq c.value_handle] else [])
    ∧ process_from cccd chars i =
        .visit i :: (char_trace cccd c ++ process_from cccd chars (i + 1)) := by
  have hct : char_trace cccd c =
      (if c.props.read then [.readReq c.value_handle] else []) := by
    simp [char_trace, hn, hnd]
  refine ⟨?_, ?_, hct, process_from_of_some cccd chars i c hc⟩
  · rw [hct]
    cases hr : c.props.read <;> simp [hr, isDescReq]
  · rw [hct]
    cases hr : c.props.read <;> simp [hr, isWriteReq]

/-- Witness for C3: the readable, non-notifying, non-indicating sample
record issues no descriptor work and the cursor moves on. -/
theorem C3_no_descriptor_work_witness :
    (([sampleReadOnly] : List DiscoveredCharacteristic)[0]? = some sampleReadOnly)
    ∧ sampleReadOnly.props.notify = false
    ∧ sampleReadOnly.props.indicate = false
    ∧ ((char_trace (fun _ => none) sampleReadOnly).countP isDescReq = 0
       ∧ (char_trace (fun _ => none) sampleReadOnly).countP isWriteReq = 0
       ∧ char_trace (fun _ => none) sampleReadOnly =
           (if sampleReadOnly.props.read
            then [.readReq sampleReadOnly.value_handle] else [])
       ∧ process_from (fun _ => none) [sampleReadOnly] 0 =
           .visit 0 :: (char_trace (fun _ => none) sampleReadOnly ++
             process_from (fun _ => none) [sampleReadOnly] 1)) :=
  ⟨rfl, rfl, rfl,
    C3_no_descriptor_work (fun _ => none) [sampleReadOnly] 0 sampleReadOnly
      rfl rfl rfl⟩

/-- C4: `stop` leaves the registry empty, the cursor reset, the
connection handle at the unbound sentinel 0 and the module in Idle, from
any state; and it is idempotent: `stop ∘ stop = stop`. -/
theorem C4_stop_resets_and_idempotent (s : ModuleState) :
    (stop s).characteristics = []
    ∧ (stop s).it = none
    ∧ get_connection_handle_t (stop s) = 0
    ∧ (stop s).phase = .idle
    ∧ stop (stop s) = stop s :=
  ⟨rfl, rfl, rfl, rfl, rfl⟩

/-- C5: `start_discovery` from any state first discards all prior
registry state — empty registry, reset cursor — binds the new connection
and enters ServiceDiscovery, so the registry produced by the new
discovery run contains exactly the newly reported records and nothing
stale from the earlier run. -/
theorem C5_restart_discards_prior_state (s : ModuleState) (conn : Nat)
    (reported : List DiscoveredCharacteristic) :
    (start_discovery s conn).characteristics = []
    ∧ (start_discovery s conn).it = none
    ∧ (start_discovery s conn).phase = .serviceDiscovery
    ∧ (start_discovery s conn).connection_handle = conn
    ∧ run_discovery reported (start_discovery s conn).characteristics = reported :=
  ⟨rfl, rfl, rfl, rfl, run_discovery_from_empty reported⟩

/-- The value handles of the registry records, in registry order. -/
def value_handles (registry : List DiscoveredCharacteristic) : List Nat :=
  registry.map DiscoveredCharacteristic.value_handle

/-- C6: when a CCCD handle was captured during a record's descriptor
discovery, the record's segment contains exactly one CCCD write, to that
handle; it carries the notification-enable pattern whenever the record
advertises notify, and the indication-enable pattern only when it
advertises indicate without notify — notify takes precedence when both
capabilities are present. -/
theorem C6_subscription_pattern (cccd : DiscoveredCharacteristic → Option Nat)
    (c : DiscoveredCharacteristic) (hdl : Nat) (hcap : cccd c = some hdl)
    (hni : c.props.notify = true ∨ c.props.indicate = true) :
    (char_trace cccd c).filter isWriteReq =
      [.writeReq hdl (if c.props.notify then notification_enable
                      else indication_enable)]
    ∧ (c.props.notify = true →
        (char_trace cccd c).filter isWriteReq =
          [.writeReq hdl notification_enable])
    ∧ (c.props.notify = false → c.props.indicate = true →
        (char_trace cccd c).filter isWriteReq =
          [.writeReq hdl indication_enable]) := by
  have hor : (c.props.notify || c.props.indicate) = true := by
    rcases hni with h | h <;> simp [h]
  have hmain : (char_trace cccd c).filter isWriteReq =
      [.writeReq hdl (if c.props.notify then notification_enable
                      else indication_enable)] := by
    cases hr : c.props.read <;>
      simp [char_trace, hr, hor, hcap, isWriteReq]
  refine ⟨hmain, ?_, ?_⟩
  · intro hn
    rw [hmain]
    simp [hn]
  · intro hn _
    rw [hmain]
    simp [hn]

/-- Witness for C6: the sample record advertising both notify and
indicate, with a captured CCCD handle 9, receives the
notification-enable pattern (notify takes precedence). -/
theorem C6_subscription_pattern_witness :
    ((fun _ => some 9) sampleNotifyIndicate = some 9)
    ∧ (sampleNotifyIndicate.props.notify = true
       ∨ sampleNotifyIndicate.props.indicate = true)
    ∧ ((char_trace (fun _ => some 9) sampleNotifyIndicate).filter isWriteReq =
        [.writeReq 9 (if sampleNotifyIndicate.props.notify
                      then notification_enable else indication_enable)]
       ∧ (sampleNotifyIndicate.props.notify = true →
           (char_trace (fun _ => some 9) sampleNotifyIndicate).filter isWriteReq =
             [.writeReq 9 notification_enable])
       ∧ (sampleNotifyIndicate.props.notify = false →
           sampleNotifyIndicate.props.indicate = true →
           (char_trace (fun _ => some 9) sampleNotifyIndicate).filter isWriteReq =
             [.writeReq 9 indication_enable])) :=
  ⟨rfl, Or.inl rfl,
    C6_subscription_pattern (fun _ => some 9) sampleNotifyIndicate 9 rfl
      (Or.inl rfl)⟩

/-- C7: appending a record whose value handle is not yet present
preserves the no-duplicate-value-handles invariant, and — given the GATT
guarantee that the server reports pairwise-distinct value handles — the
registry satisfies the invariant at every point during and after
discovery (after every prefix of the reported sequence). -/
theorem C7_no_duplicate_value_handles (reported : List DiscoveredCharacteristic)
    (hdistinct : (value_handles reported).Nodup) :
    (∀ (registry : List DiscoveredCharacteristic)
        (c : DiscoveredCharacteristic) (alloc_ok : Bool),
        (value_handles registry).Nodup →
        c.value_handle ∉ value_handles registry →
        (value_handles (add_characteristic alloc_ok registry c).1).Nodup)
    ∧ ∀ k, (value_handles (run_discovery (reported.take k) [])).Nodup := by
  constructor
  · intro registry c alloc_ok hnd hmem
    cases alloc_ok
    · simpa [add_characteristic] using hnd
    · simp only [value_handles] at hnd hmem
      simp [add_characteristic, value_handles, List.nodup_append, hnd, hmem]
  · intro k
    rw [run_discovery_from_empty]
    have hsub : List.Sublist (value_handles (reported.take k))
        (value_handles reported) := (List.take_sublist k reported).map _
    exact hdistinct.sublist hsub

/-- Witness for C7: two sample records with distinct value handles. -/
theorem C7_no_duplicate_value_handles_witness :
    (value_handles [sampleReadOnly, sampleNotifyIndicate]).Nodup
    ∧ ((∀ (registry : List DiscoveredCharacteristic)
          (c : DiscoveredCharacteristic) (alloc_ok : Bool),
          (value_handles registry).Nodup →
          c.value_handle ∉ value_handles registry →
          (value_handles (add_characteristic alloc_ok registry c).1).Nodup)
       ∧ ∀ k, (value_handles
            (run_discovery ([sampleReadOnly, sampleNotifyIndicate].take k) [])).Nodup) :=
  ⟨by decide,
    C7_no_duplicate_value_handles [sampleReadOnly, sampleNotifyIndicate] (by decide)⟩

/-- C8: a failed append returns failure with the registry untouched, a
successful append only adds at the end, and a full discovery run under
any allocation oracle extends the prior registry by a prefix of the
reported sequence — the already-discovered entries are never unwound or
modified. -/
theorem C8_append_failure_safe (registry : List DiscoveredCharacteristic)
    (c : DiscoveredCharacteristic) (alloc : Nat → Bool)
    (reported : List DiscoveredCharacteristic) :
    add_characteristic false registry c = (registry, false)
    ∧ (add_characteristic true registry c).1 = registry ++ [c]
    ∧ ∃ k, run_service_discovery alloc reported registry =
        registry ++ reported.take k :=
  ⟨rfl, rfl, run_service_discovery_take alloc reported registry⟩

/-- C9: a value-change event whose payload exceeds the channel capacity
leaves the channel exactly as it was — previous buffer contents and both
flags intact — and a subsequent correctly-sized notification is
published exactly as it would have been on the undisturbed channel. -/
theorem C9_oversized_notification_dropped (ch : Channel)
    (ev : GattHVXCallbackParams) (hover : ch.capacity < ev.data.length) :
    when_characteristic_changed ch ev = ch
    ∧ ∀ ev2 : GattHVXCallbackParams, ev2.data.length ≤ ch.capacity →
        when_characteristic_changed (when_characteristic_changed ch ev) ev2 =
          { ch with
            buffer := ev2.data
            dataReady := true
            mode := if ev2.is_notification then notification_enable
                    else indication_enable } := by
  have h1 : when_characteristic_changed ch ev = ch := by
    simp [when_characteristic_changed, hover]
  refine ⟨h1, ?_⟩
  intro ev2 h2
  rw [h1]
  unfold when_characteristic_changed
  rw [if_neg (by omega)]

/-- Witness for C9: a 3-byte payload against the capacity-2 sample
channel is dropped without disturbing it. -/
theorem C9_oversized_notification_dropped_witness :
    sampleChannel.capacity < sampleOversized.data.length
    ∧ (when_characteristic_changed sampleChannel sampleOversized = sampleChannel
       ∧ ∀ ev2 : GattHVXCallbackParams, ev2.data.length ≤ sampleChannel.capacity →
           when_characteristic_changed
               (when_characteristic_changed sampleChannel sampleOversized) ev2 =
             { sampleChannel with
               buffer := ev2.data
               dataReady := true
               mode := if ev2.is_notification then notification_enable
                       else indication_enable }) :=
  ⟨by decide,
    C9_oversized_notification_dropped sampleChannel sampleOversized (by decide)⟩

/-- C10: on a freshly constructed module the connection handle reads
back as the unbound sentinel 0 through `get_connection_handle_t`, the
characteristic list and the cursor are null (empty registry), and the
captured CCCD descriptor handle is 0 — exactly the header's field
initializers. -/
theorem C10_fresh_module_defaults :
    get_connection_handle_t initModule = 0
    ∧ initModule.characteristics = []
    ∧ initModule.it = none
    ∧ initModule.descriptor_handle = 0 :=
  ⟨rfl, rfl, rfl, rfl⟩

end GattClientModule
